import Mathlib

/-!
Shallow embedding of the physics core of `prueba-fisica`
(`js/physics/motion.js`, `js/physics/forces.js`), with the numeric type ℚ
standing for JavaScript numbers. Numeric literals from the source
(`0.8`, `9.81`, `0.5`) are written as exact rationals.
-/

/-- A 2D vector, the `{x, y}` duck-typed literal used throughout the source.
`.1` is the `x` component, `.2` is the `y` component. -/
abbrev Vec : Type := ℚ × ℚ

/-- A physical object as created by `PhysicsEngine.createObject`
(`motion.js` lines 442-456): position, velocity, acceleration, mass,
radius, plus the cosmetic `id`, `color` and `type` tags. -/
structure Body where
  id : String
  position : Vec
  velocity : Vec
  acceleration : Vec
  mass : ℚ
  radius : ℚ
  color : String
  type : String
  deriving DecidableEq, Repr

/-- `MotionSystem.integrateEuler(object, netForce, deltaTime)`
(`motion.js` lines 53-74): `dt = deltaTime * timeScale`, acceleration
`netForce / mass`, velocity updated first, position updated with the
already-updated velocity, acceleration written back.  Returns the updated
object together with the acceleration that the JS function returns. -/
def integrateEuler (timeScale : ℚ) (object : Body) (netForce : Vec)
    (deltaTime : ℚ) : Body × Vec :=
  let dt := deltaTime * timeScale
  let acceleration : Vec := (netForce.1 / object.mass, netForce.2 / object.mass)
  let velocity : Vec :=
    (object.velocity.1 + acceleration.1 * dt, object.velocity.2 + acceleration.2 * dt)
  let position : Vec :=
    (object.position.1 + velocity.1 * dt, object.position.2 + velocity.2 * dt)
  ({ object with position := position, velocity := velocity,
                 acceleration := acceleration }, acceleration)

/-- `MotionSystem.integrateMotion(object, netForce, deltaTime)`
(`motion.js` lines 18-48), the Verlet-style variant:
`position += velocity*dt + 0.5*acceleration*dt²` using the OLD velocity,
then `velocity += acceleration*dt`.  Returns the updated object, the
acceleration and the displacement, as the JS function does. -/
def integrateMotion (timeScale : ℚ) (object : Body) (netForce : Vec)
    (deltaTime : ℚ) : Body × Vec × Vec :=
  let dt := deltaTime * timeScale
  let acceleration : Vec := (netForce.1 / object.mass, netForce.2 / object.mass)
  let prevPosition := object.position
  let position : Vec :=
    (object.position.1 + object.velocity.1 * dt + (1/2) * acceleration.1 * dt * dt,
     object.position.2 + object.velocity.2 * dt + (1/2) * acceleration.2 * dt * dt)
  let velocity : Vec :=
    (object.velocity.1 + acceleration.1 * dt, object.velocity.2 + acceleration.2 * dt)
  ({ object with position := position, velocity := velocity,
                 acceleration := acceleration },
   acceleration,
   (position.1 - prevPosition.1, position.2 - prevPosition.2))

/-- The body of Concrete scenario 2: mass 1, at rest. -/
def scenario2Body : Body :=
  { id := "test-object", position := (100, 200), velocity := (0, 0),
    acceleration := (0, 0), mass := 1, radius := 10,
    color := "#3b82f6", type := "ball" }

/-- C6: one `integrateEuler` step computes `acceleration = netForce/mass`,
updates `velocity += acceleration·dt`, then `position += velocity·dt` with
the already-updated velocity (semi-implicit Euler), writes the
acceleration back onto the body and returns the acceleration vector
(`dt` being the time delta scaled by `timeScale`). -/
theorem integrateEuler_semi_implicit (timeScale : ℚ) (object : Body)
    (netForce : Vec) (deltaTime : ℚ) (hm : 0 < object.mass) :
    (integrateEuler timeScale object netForce deltaTime).2 =
      (netForce.1 / object.mass, netForce.2 / object.mass) ∧
    (integrateEuler timeScale object netForce deltaTime).1.acceleration =
      (netForce.1 / object.mass, netForce.2 / object.mass) ∧
    (integrateEuler timeScale object netForce deltaTime).1.velocity =
      (object.velocity.1 + (netForce.1 / object.mass) * (deltaTime * timeScale),
       object.velocity.2 + (netForce.2 / object.mass) * (deltaTime * timeScale)) ∧
    (integrateEuler timeScale object netForce deltaTime).1.position =
      (object.position.1 +
         (integrateEuler timeScale object netForce deltaTime).1.velocity.1 *
           (deltaTime * timeScale),
       object.position.2 +
         (integrateEuler timeScale object netForce deltaTime).1.velocity.2 *
           (deltaTime * timeScale)) ∧
    (integrateEuler timeScale object netForce deltaTime).1.mass = object.mass :=
  ⟨rfl, rfl, rfl, rfl, rfl⟩

/-- Witness for C6 at the Concrete scenario 2 input. -/
theorem integrateEuler_semi_implicit_witness :
    (0 : ℚ) < scenario2Body.mass ∧
    (integrateEuler 1 scenario2Body (20, 0) 1).1.velocity = (20, 0) :=
  ⟨by norm_num [scenario2Body],
   ((integrateEuler_semi_implicit 1 scenario2Body (20, 0) 1
       (by norm_num [scenario2Body])).2.2.1).trans
     (by norm_num [scenario2Body])⟩

/-- C7: force (20,0) on a mass-1 body at rest, one `integrateMotion` step
with dt = 1 s (timeScale 1): acceleration (20,0), final velocity (20,0),
and a position advance of 10 units in x (and 0 in y). -/
theorem integrateMotion_scenario2 :
    (integrateMotion 1 scenario2Body (20, 0) 1).2.1 = (20, 0) ∧
    (integrateMotion 1 scenario2Body (20, 0) 1).1.acceleration = (20, 0) ∧
    (integrateMotion 1 scenario2Body (20, 0) 1).1.velocity = (20, 0) ∧
    (integrateMotion 1 scenario2Body (20, 0) 1).2.2 = (10, 0) ∧
    (integrateMotion 1 scenario2Body (20, 0) 1).1.position = (110, 200) := by
  refine ⟨?_, ?_, ?_, ?_, ?_⟩ <;> norm_num [integrateMotion, scenario2Body]

/-!
The collision resolver `PhysicsEngine.applyThirdLaw`
(`motion.js` lines 366-437).  The JS function computes
`distance = Math.sqrt(dx*dx + dy*dy)`; since ℚ has no square root, the
embedding takes `distance` as an explicit argument and the theorems
constrain it by `IsDist`, the defining property of that square root.
The JS return value `{forceA, forceB, momentum}` is consumed only for
display; the embedding returns the updated pair of bodies, which is the
state effect the claims are about.
-/

/-- Squared distance between the centers of two bodies, the
`dx*dx + dy*dy` of `applyThirdLaw`. -/
def sqDist (objectA objectB : Body) : ℚ :=
  (objectB.position.1 - objectA.position.1) * (objectB.position.1 - objectA.position.1) +
    (objectB.position.2 - objectA.position.2) * (objectB.position.2 - objectA.position.2)

/-- The proposition that `d` is the value `Math.sqrt(dx*dx + dy*dy)`
computed by `applyThirdLaw` for the pair: nonnegative, with square equal
to the squared center distance. -/
def IsDist (objectA objectB : Body) (d : ℚ) : Prop :=
  0 ≤ d ∧ d * d = sqDist objectA objectB

/-- Restitution selection of `applyThirdLaw` (`motion.js` lines 391-397):
starts at `1.0` (elastic) and is overwritten only for the strings
`inelastic` (`0.5`) and `perfectly-inelastic` (`0.0`). -/
def restitutionFor (collisionType : String) : ℚ :=
  if collisionType = "inelastic" then 1/2
  else if collisionType = "perfectly-inelastic" then 0
  else 1

/-- The relative speed of the pair along the unit normal
`((bx-ax)/d, (by-ay)/d)`, the `relativeSpeed` of `applyThirdLaw`
(`motion.js` lines 383-386). -/
def relSpeedAt (objectA objectB : Body) (distance : ℚ) : ℚ :=
  (objectB.velocity.1 - objectA.velocity.1) *
      ((objectB.position.1 - objectA.position.1) / distance) +
    (objectB.velocity.2 - objectA.velocity.2) *
      ((objectB.position.2 - objectA.position.2) / distance)

/-- `PhysicsEngine.applyThirdLaw(objectAId, objectBId, collisionType)`
(`motion.js` lines 366-437) acting on the two resolved bodies, with the
computed center distance passed explicitly.  Early returns (zero
distance, separating pair) leave both bodies untouched; otherwise the
impulse `-(1+e)*relativeSpeed / (1/massA + 1/massB)` is applied as
`+impulse*n` to A and `-impulse*n` to B, and overlapping bodies are
pushed apart by half the overlap each. -/
def applyThirdLawWithDist (objectA objectB : Body) (collisionType : String)
    (distance : ℚ) : Body × Body :=
  if distance = 0 then (objectA, objectB)
  else
    let nx := (objectB.position.1 - objectA.position.1) / distance
    let ny := (objectB.position.2 - objectA.position.2) / distance
    if 0 < relSpeedAt objectA objectB distance then (objectA, objectB)
    else
      let restitution := restitutionFor collisionType
      let impulse := -(1 + restitution) * relSpeedAt objectA objectB distance /
        (1 / objectA.mass + 1 / objectB.mass)
      let velocityA : Vec :=
        (objectA.velocity.1 + impulse * nx / objectA.mass,
         objectA.velocity.2 + impulse * ny / objectA.mass)
      let velocityB : Vec :=
        (objectB.velocity.1 + (-impulse * nx) / objectB.mass,
         objectB.velocity.2 + (-impulse * ny) / objectB.mass)
      let overlap := (objectA.radius + objectB.radius) - distance
      let positionA : Vec :=
        if 0 < overlap then
          (objectA.position.1 - nx * overlap * (1/2),
           objectA.position.2 - ny * overlap * (1/2))
        else objectA.position
      let positionB : Vec :=
        if 0 < overlap then
          (objectB.position.1 + nx * overlap * (1/2),
           objectB.position.2 + ny * overlap * (1/2))
        else objectB.position
      ({ objectA with position := positionA, velocity := velocityA },
       { objectB with position := positionB, velocity := velocityB })

/-- C1: whenever `applyThirdLaw` performs a velocity update (nonzero
center distance, relative normal speed ≤ 0), the total vector momentum of
the pair is unchanged: `massA*ΔvA + massB*ΔvB = 0` componentwise, for
every collision type in the three recognized strings. -/
theorem applyThirdLaw_conserves_momentum (objectA objectB : Body)
    (collisionType : String) (d : ℚ) (hd : IsDist objectA objectB d)
    (hd0 : d ≠ 0) (hmA : 0 < objectA.mass) (hmB : 0 < objectB.mass)
    (hrel : relSpeedAt objectA objectB d ≤ 0)
    (hct : collisionType = "elastic" ∨ collisionType = "inelastic" ∨
      collisionType = "perfectly-inelastic") :
    objectA.mass *
        ((applyThirdLawWithDist objectA objectB collisionType d).1.velocity.1 -
          objectA.velocity.1) +
      objectB.mass *
        ((applyThirdLawWithDist objectA objectB collisionType d).2.velocity.1 -
          objectB.velocity.1) = 0 ∧
    objectA.mass *
        ((applyThirdLawWithDist objectA objectB collisionType d).1.velocity.2 -
          objectA.velocity.2) +
      objectB.mass *
        ((applyThirdLawWithDist objectA objectB collisionType d).2.velocity.2 -
          objectB.velocity.2) = 0 := by
  have hA : objectA.mass ≠ 0 := ne_of_gt hmA
  have hB : objectB.mass ≠ 0 := ne_of_gt hmB
  simp only [applyThirdLawWithDist, if_neg hd0, if_neg (not_lt.mpr hrel)]
  constructor <;> · field_simp; ring

/-- Body A of Concrete scenario 1 (`ThirdLawSimulator.createObjects`):
mass 1, radius 20, velocity (5,0). -/
def scenario1BodyA : Body :=
  { id := "object-a", position := (200, 200), velocity := (5, 0),
    acceleration := (0, 0), mass := 1, radius := 20,
    color := "#f59e0b", type := "ball" }

/-- Body B of Concrete scenario 1: mass 2, radius 20, velocity (-3,0),
taken at the moment its center is 39 units right of A's center, i.e. the
first configuration with center distance below 40 on the approach
(created at x = 500 and moving left). -/
def scenario1BodyB : Body :=
  { id := "object-b", position := (239, 200), velocity := (-3, 0),
    acceleration := (0, 0), mass := 2, radius := 20,
    color := "#8b5cf6", type := "ball" }

/-- Witness for C1: the momentum identity at the scenario-1 elastic
collision (distance 39, relative normal speed -8). -/
theorem applyThirdLaw_conserves_momentum_witness :
    scenario1BodyA.mass *
        ((applyThirdLawWithDist scenario1BodyA scenario1BodyB "elastic" 39).1.velocity.1 -
          scenario1BodyA.velocity.1) +
      scenario1BodyB.mass *
        ((applyThirdLawWithDist scenario1BodyA scenario1BodyB "elastic" 39).2.velocity.1 -
          scenario1BodyB.velocity.1) = 0 ∧
    scenario1BodyA.mass *
        ((applyThirdLawWithDist scenario1BodyA scenario1BodyB "elastic" 39).1.velocity.2 -
          scenario1BodyA.velocity.2) +
      scenario1BodyB.mass *
        ((applyThirdLawWithDist scenario1BodyA scenario1BodyB "elastic" 39).2.velocity.2 -
          scenario1BodyB.velocity.2) = 0 :=
  applyThirdLaw_conserves_momentum scenario1BodyA scenario1BodyB "elastic" 39
    ⟨by norm_num, by norm_num [sqDist, scenario1BodyA, scenario1BodyB]⟩
    (by norm_num)
    (by norm_num [scenario1BodyA])
    (by norm_num [scenario1BodyB])
    (by norm_num [relSpeedAt, scenario1BodyA, scenario1BodyB])
    (Or.inl rfl)

/-- C5: a pair whose relative velocity along the collision normal is
strictly positive (already separating) is left completely unchanged by
`applyThirdLaw` - velocities and positions. -/
theorem applyThirdLaw_noop_on_separation (objectA objectB : Body)
    (collisionType : String) (d : ℚ) (hd : IsDist objectA objectB d)
    (hrel : 0 < relSpeedAt objectA objectB d) :
    applyThirdLawWithDist objectA objectB collisionType d = (objectA, objectB) := by
  by_cases hd0 : d = 0
  · simp [applyThirdLawWithDist, hd0]
  · simp [applyThirdLawWithDist, if_neg hd0, if_pos hrel]

/-- Witness for C5: a separating pair at distance 39 (A moving left,
B moving right) is returned unchanged. -/
theorem applyThirdLaw_noop_on_separation_witness :
    applyThirdLawWithDist
        { scenario1BodyA with velocity := (-1, 0) }
        { scenario1BodyB with velocity := (1, 0) } "elastic" 39 =
      ({ scenario1BodyA with velocity := (-1, 0) },
       { scenario1BodyB with velocity := (1, 0) }) :=
  applyThirdLaw_noop_on_separation _ _ "elastic" 39
    ⟨by norm_num, by norm_num [sqDist, scenario1BodyA, scenario1BodyB]⟩
    (by norm_num [relSpeedAt, scenario1BodyA, scenario1BodyB])

/-- The unit collision normal of `applyThirdLaw`, pointing from A to B. -/
def normalAt (objectA objectB : Body) (distance : ℚ) : Vec :=
  ((objectB.position.1 - objectA.position.1) / distance,
   (objectB.position.2 - objectA.position.2) / distance)

/-- A body's kinetic energy along a unit normal `n`: `½·m·(v·n)²`. -/
def keAlongNormal (object : Body) (n : Vec) : ℚ :=
  (1/2) * object.mass * (object.velocity.1 * n.1 + object.velocity.2 * n.2)^2

/-- C3 evaluation: at the scenario-1 elastic collision (distance 39 < 40,
normal (1,0), relative speed -8) the code produces velocities
(47/3, 0) ≈ (15.67, 0) for A and (-25/3, 0) ≈ (-8.33, 0) for B - A ends up
moving right and B left, the opposite signs of the claimed standard
result v_a' = -5.67, v_b' = 2.33.  The impulse is applied with inverted
signs (`+impulse*n` to A), pushing the bodies toward each other. -/
theorem applyThirdLaw_elastic_scenario1_velocities :
    IsDist scenario1BodyA scenario1BodyB 39 ∧
    relSpeedAt scenario1BodyA scenario1BodyB 39 = -8 ∧
    (applyThirdLawWithDist scenario1BodyA scenario1BodyB "elastic" 39).1.velocity =
      (47/3, 0) ∧
    (applyThirdLawWithDist scenario1BodyA scenario1BodyB "elastic" 39).2.velocity =
      (-25/3, 0) ∧
    0 < (applyThirdLawWithDist scenario1BodyA scenario1BodyB "elastic" 39).1.velocity.1 ∧
    (applyThirdLawWithDist scenario1BodyA scenario1BodyB "elastic" 39).2.velocity.1 < 0 := by
  refine ⟨⟨by norm_num, ?_⟩, ?_, ?_, ?_, ?_, ?_⟩ <;>
    simp [applyThirdLawWithDist, relSpeedAt, restitutionFor, sqDist,
      scenario1BodyA, scenario1BodyB] <;>
    norm_num

/-- C2 evaluation: at the scenario-1 collision the pre-collision kinetic
energy along the normal is 43/2, but after the `elastic` resolution it is
1153/6 ≠ 43/2 (energy is injected, not conserved), and after the
`perfectly-inelastic` resolution the relative velocity along the normal
is -16, not 0 (the pair approaches twice as fast instead of moving
together). -/
theorem applyThirdLaw_energy_law_fails :
    keAlongNormal scenario1BodyA (normalAt scenario1BodyA scenario1BodyB 39) +
        keAlongNormal scenario1BodyB (normalAt scenario1BodyA scenario1BodyB 39) =
      43/2 ∧
    keAlongNormal (applyThirdLawWithDist scenario1BodyA scenario1BodyB "elastic" 39).1
          (normalAt scenario1BodyA scenario1BodyB 39) +
        keAlongNormal (applyThirdLawWithDist scenario1BodyA scenario1BodyB "elastic" 39).2
          (normalAt scenario1BodyA scenario1BodyB 39) =
      1153/6 ∧
    (1153/6 : ℚ) ≠ 43/2 ∧
    ((applyThirdLawWithDist scenario1BodyA scenario1BodyB "perfectly-inelastic" 39).2.velocity.1 -
          (applyThirdLawWithDist scenario1BodyA scenario1BodyB "perfectly-inelastic" 39).1.velocity.1) *
        (normalAt scenario1BodyA scenario1BodyB 39).1 +
      ((applyThirdLawWithDist scenario1BodyA scenario1BodyB "perfectly-inelastic" 39).2.velocity.2 -
          (applyThirdLawWithDist scenario1BodyA scenario1BodyB "perfectly-inelastic" 39).1.velocity.2) *
        (normalAt scenario1BodyA scenario1BodyB 39).2 = -16 ∧
    (-16 : ℚ) ≠ 0 := by
  refine ⟨?_, ?_, by norm_num, ?_, by norm_num⟩ <;>
    simp [applyThirdLawWithDist, relSpeedAt, restitutionFor, normalAt,
      keAlongNormal, scenario1BodyA, scenario1BodyB] <;>
    norm_num

/-- C4 counterexample: called with the unrecognized collision type
`superelastic`, `applyThirdLaw` does not fail - it silently selects
restitution 1.0, behaves exactly like `elastic`, and updates the
velocities. -/
theorem applyThirdLaw_unknown_type_no_failure :
    restitutionFor "superelastic" = 1 ∧
    applyThirdLawWithDist scenario1BodyA scenario1BodyB "superelastic" 39 =
      applyThirdLawWithDist scenario1BodyA scenario1BodyB "elastic" 39 ∧
    (applyThirdLawWithDist scenario1BodyA scenario1BodyB "superelastic" 39).1.velocity ≠
      scenario1BodyA.velocity := by
  refine ⟨by simp [restitutionFor], rfl, ?_⟩
  simp [applyThirdLawWithDist, relSpeedAt, restitutionFor,
    scenario1BodyA, scenario1BodyB]
  norm_num

/-- C4 amended: for every collision type outside the three recognized
strings, `applyThirdLaw` silently substitutes restitution 1.0 and behaves
exactly as an elastic collision; no error is signalled. -/
theorem applyThirdLaw_unknown_type_defaults_elastic (collisionType : String)
    (h1 : collisionType ≠ "inelastic") (h2 : collisionType ≠ "perfectly-inelastic") :
    restitutionFor collisionType = 1 ∧
    ∀ (objectA objectB : Body) (d : ℚ),
      applyThirdLawWithDist objectA objectB collisionType d =
        applyThirdLawWithDist objectA objectB "elastic" d := by
  constructor
  · simp [restitutionFor, h1, h2]
  · intro objectA objectB d
    simp [applyThirdLawWithDist, restitutionFor, h1, h2]

/-- Witness for the amended C4 at the concrete type `superelastic`. -/
theorem applyThirdLaw_unknown_type_defaults_elastic_witness :
    ("superelastic" ≠ "inelastic" ∧ "superelastic" ≠ "perfectly-inelastic") ∧
    restitutionFor "superelastic" = 1 :=
  ⟨⟨by decide, by decide⟩,
   (applyThirdLaw_unknown_type_defaults_elastic "superelastic"
     (by decide) (by decide)).1⟩

/-- `PhysicsEngine.applyBoundaries(object, canvasWidth = 800, canvasHeight = 400)`
(`motion.js` lines 505-525): four sequential checks - left wall, right
wall, top wall, bottom wall - each clamping the position to one radius
from the wall and scaling the reflected velocity component by `-0.8`
(written `-(4/5)`). -/
def applyBoundaries (object : Body) (canvasWidth canvasHeight : ℚ) : Body :=
  let o1 :=
    if object.position.1 - object.radius < 0 then
      { object with position := (object.radius, object.position.2),
                    velocity := (-object.velocity.1 * (4/5), object.velocity.2) }
    else object
  let o2 :=
    if o1.position.1 + o1.radius > canvasWidth then
      { o1 with position := (canvasWidth - o1.radius, o1.position.2),
                velocity := (-o1.velocity.1 * (4/5), o1.velocity.2) }
    else o1
  let o3 :=
    if o2.position.2 - o2.radius < 0 then
      { o2 with position := (o2.position.1, o2.radius),
                velocity := (o2.velocity.1, -o2.velocity.2 * (4/5)) }
    else o2
  if o3.position.2 + o3.radius > canvasHeight then
    { o3 with position := (o3.position.1, canvasHeight - o3.radius),
              velocity := (o3.velocity.1, -o3.velocity.2 * (4/5)) }
  else o3

/-- Characterization of `applyBoundaries` when the body's diameter fits
inside the canvas, so that at most one wall per axis can trigger. -/
lemma applyBoundaries_char (object : Body) (w h : ℚ)
    (hw : 2 * object.radius ≤ w) (hh : 2 * object.radius ≤ h) :
    applyBoundaries object w h =
      { object with
        position :=
          (if object.position.1 - object.radius < 0 then object.radius
           else if object.position.1 + object.radius > w then w - object.radius
           else object.position.1,
           if object.position.2 - object.radius < 0 then object.radius
           else if object.position.2 + object.radius > h then h - object.radius
           else object.position.2),
        velocity :=
          (if object.position.1 - object.radius < 0 then -object.velocity.1 * (4/5)
           else if object.position.1 + object.radius > w then -object.velocity.1 * (4/5)
           else object.velocity.1,
           if object.position.2 - object.radius < 0 then -object.velocity.2 * (4/5)
           else if object.position.2 + object.radius > h then -object.velocity.2 * (4/5)
           else object.velocity.2) } := by
  have hxr : ¬(object.radius + object.radius > w) := by linarith
  have hyr : ¬(object.radius + object.radius > h) := by linarith
  by_cases h1 : object.position.1 - object.radius < 0 <;>
    by_cases h2 : object.position.1 + object.radius > w <;>
    by_cases h3 : object.position.2 - object.radius < 0 <;>
    by_cases h4 : object.position.2 + object.radius > h <;>
    simp [applyBoundaries, h1, h2, h3, h4, hxr, hyr]

/-- C9: per axis, a body whose circle crosses a wall is clamped to one
radius from that wall with the velocity component on that axis replaced
by -0.8 times its previous value; an axis with no crossing is untouched,
and a body touching no limit is returned unchanged (stated for a body
whose diameter fits in the canvas, as in the source's 800x400 canvas
with radius at most 30). -/
theorem applyBoundaries_reflects (object : Body) (w h : ℚ)
    (hw : 2 * object.radius ≤ w) (hh : 2 * object.radius ≤ h) :
    (object.position.1 - object.radius < 0 →
      (applyBoundaries object w h).position.1 = object.radius ∧
      (applyBoundaries object w h).velocity.1 = -object.velocity.1 * (4/5)) ∧
    (object.position.1 + object.radius > w →
      (applyBoundaries object w h).position.1 = w - object.radius ∧
      (applyBoundaries object w h).velocity.1 = -object.velocity.1 * (4/5)) ∧
    (¬(object.position.1 - object.radius < 0) →
      ¬(object.position.1 + object.radius > w) →
      (applyBoundaries object w h).position.1 = object.position.1 ∧
      (applyBoundaries object w h).velocity.1 = object.velocity.1) ∧
    (object.position.2 - object.radius < 0 →
      (applyBoundaries object w h).position.2 = object.radius ∧
      (applyBoundaries object w h).velocity.2 = -object.velocity.2 * (4/5)) ∧
    (object.position.2 + object.radius > h →
      (applyBoundaries object w h).position.2 = h - object.radius ∧
      (applyBoundaries object w h).velocity.2 = -object.velocity.2 * (4/5)) ∧
    (¬(object.position.2 - object.radius < 0) →
      ¬(object.position.2 + object.radius > h) →
      (applyBoundaries object w h).position.2 = object.position.2 ∧
      (applyBoundaries object w h).velocity.2 = object.velocity.2) ∧
    (¬(object.position.1 - object.radius < 0) →
      ¬(object.position.1 + object.radius > w) →
      ¬(object.position.2 - object.radius < 0) →
      ¬(object.position.2 + object.radius > h) →
      applyBoundaries object w h = object) := by
  rw [applyBoundaries_char object w h hw hh]
  refine ⟨?_, ?_, ?_, ?_, ?_, ?_, ?_⟩
  · intro h1; simp [h1]
  · intro h2
    have h1 : ¬(object.position.1 - object.radius < 0) := by linarith
    simp [h1, h2]
  · intro h1 h2; simp [h1, h2]
  · intro h3; simp [h3]
  · intro h4
    have h3 : ¬(object.position.2 - object.radius < 0) := by linarith
    simp [h3, h4]
  · intro h3 h4; simp [h3, h4]
  · intro h1 h2 h3 h4; simp [h1, h2, h3, h4]

/-- A body crossing the left wall of the default 800x400 canvas. -/
def leftWallBody : Body :=
  { id := "test-object", position := (5, 200), velocity := (-2, 1),
    acceleration := (0, 0), mass := 1, radius := 10,
    color := "#3b82f6", type := "ball" }

/-- Witness for C9: the left-wall crossing body is clamped to x = 10 with
x-velocity reflected to -0.8·(-2) = 8/5. -/
theorem applyBoundaries_reflects_witness :
    (2 * leftWallBody.radius ≤ (800:ℚ) ∧ 2 * leftWallBody.radius ≤ (400:ℚ) ∧
      leftWallBody.position.1 - leftWallBody.radius < 0) ∧
    (applyBoundaries leftWallBody 800 400).position.1 = leftWallBody.radius ∧
    (applyBoundaries leftWallBody 800 400).velocity.1 =
      -leftWallBody.velocity.1 * (4/5) :=
  ⟨⟨by norm_num [leftWallBody], by norm_num [leftWallBody],
    by norm_num [leftWallBody]⟩,
   (applyBoundaries_reflects leftWallBody 800 400
      (by norm_num [leftWallBody]) (by norm_num [leftWallBody])).1
     (by norm_num [leftWallBody])⟩

/-!
The force system `ForceSystem` (`forces.js`).  A named force as stored in
the `forces` Map; only the fields read by `calculateNetForce` are kept
(`id` is the Map key; `type`, `duration`, `startTime` are used only by
the temporal maintenance pass `updateTemporaryForces`).  `direction` is
in radians; `Math.cos`/`Math.sin` have no exact counterpart on ℚ, so the
embedding abstracts them as function parameters `cosF`/`sinF` - no claim
below depends on their values.
-/

structure Force where
  magnitude : ℚ
  direction : ℚ
  active : Bool
  deriving DecidableEq, Repr

/-- `ForceSystem.calculateForceComponents(force)` (`forces.js` lines
33-38): `(magnitude*cos(direction), magnitude*sin(direction))`. -/
def calculateForceComponents (cosF sinF : ℚ → ℚ) (force : Force) : Vec :=
  (force.magnitude * cosF force.direction, force.magnitude * sinF force.direction)

/-- `ForceSystem.applyGravity(object)` (`forces.js` lines 43-48):
`(0, mass * gravity)`, with `gravity` the field set to 9.81 in the
constructor. -/
def applyGravity (gravity : ℚ) (object : Body) : Vec :=
  (0, object.mass * gravity)

/-- The contribution of one entry of the `activeForces` id list inside
`calculateNetForce`'s loop (`forces.js` lines 127-134): zero when the id
is not in the `forces` Map or the force's `active` flag is false, the
force's components otherwise. -/
def forceContribution (cosF sinF : ℚ → ℚ) (forces : List (String × Force))
    (forceId : String) : Vec :=
  match forces.lookup forceId with
  | some force =>
      if force.active then calculateForceComponents cosF sinF force else (0, 0)
  | none => (0, 0)

/-- `ForceSystem.calculateNetForce(object, activeForces)` (`forces.js`
lines 118-137): starts from the zero vector, unconditionally adds
gravity, then adds the contribution of each id of `activeForces` in
order. -/
def calculateNetForce (cosF sinF : ℚ → ℚ) (gravity : ℚ)
    (forces : List (String × Force)) (object : Body)
    (activeForces : List String) : Vec :=
  activeForces.foldl
    (fun netForce forceId => netForce + forceContribution cosF sinF forces forceId)
    (((0, 0) : Vec) + applyGravity gravity object)

/-- Accumulating a list of vector contributions by a left fold is the
start value plus the list sum. -/
lemma foldl_add_eq_sum (f : String → Vec) (l : List String) (init : Vec) :
    l.foldl (fun acc s => acc + f s) init = init + (l.map f).sum := by
  induction l generalizing init with
  | nil => simp
  | cons a t ih => simp [ih, add_assoc]

/-- Modelled from the spec: `netForce(body, gravityEnabled,
activeNamedForces[])` sums gravity IF ENABLED plus the components of
every listed force whose `active` flag is true.  The source
`calculateNetForce` has no `gravityEnabled` parameter; this definition
follows the spec's words for comparison. -/
def specNetForce (cosF sinF : ℚ → ℚ) (gravity : ℚ) (gravityEnabled : Bool)
    (forces : List (String × Force)) (object : Body)
    (activeForces : List String) : Vec :=
  (if gravityEnabled then applyGravity gravity object else (0, 0)) +
    (activeForces.map (forceContribution cosF sinF forces)).sum

/-- C8 counterexample: with no active forces at all, `calculateNetForce`
still returns gravity (0, 9.81) - it differs from the spec's
gravity-disabled net force (0, 0): the code has no way to disable
gravity. -/
theorem calculateNetForce_no_gravity_toggle :
    calculateNetForce (fun _ => 1) (fun _ => 0) (981/100) [] scenario2Body [] ≠
      specNetForce (fun _ => 1) (fun _ => 0) (981/100) false [] scenario2Body [] := by
  simp [calculateNetForce, specNetForce, applyGravity, scenario2Body]

/-- C8 amended: `calculateNetForce` returns gravity (always - the source
has no gravity toggle) plus the sum of the components of exactly those
listed forces that are present in the registry with `active = true`, and
the result is invariant under any permutation of the id list. -/
theorem calculateNetForce_sum_invariant (cosF sinF : ℚ → ℚ) (gravity : ℚ)
    (forces : List (String × Force)) (object : Body)
    (activeForces permuted : List String)
    (hperm : activeForces.Perm permuted) :
    calculateNetForce cosF sinF gravity forces object activeForces =
      applyGravity gravity object +
        (activeForces.map (forceContribution cosF sinF forces)).sum ∧
    calculateNetForce cosF sinF gravity forces object activeForces =
      calculateNetForce cosF sinF gravity forces object permuted ∧
    (∀ forceId force, forces.lookup forceId = some force → force.active = true →
      forceContribution cosF sinF forces forceId =
        calculateForceComponents cosF sinF force) ∧
    (∀ forceId force, forces.lookup forceId = some force → force.active = false →
      forceContribution cosF sinF forces forceId = (0, 0)) ∧
    (∀ forceId, forces.lookup forceId = none →
      forceContribution cosF sinF forces forceId = (0, 0)) := by
  have h00 : ((0, 0) : Vec) = 0 := rfl
  refine ⟨?_, ?_, ?_, ?_, ?_⟩
  · rw [calculateNetForce, foldl_add_eq_sum, h00, zero_add]
  · rw [calculateNetForce, calculateNetForce, foldl_add_eq_sum, foldl_add_eq_sum,
      (hperm.map (forceContribution cosF sinF forces)).sum_eq]
  · intro forceId force hlook hact
    simp [forceContribution, hlook, hact]
  · intro forceId force hlook hact
    simp [forceContribution, hlook, hact]
  · intro forceId hlook
    simp [forceContribution, hlook]

/-- A sample force registry: one active push of magnitude 20 at angle 0,
one inactive drag of magnitude 5. -/
def sampleForces : List (String × Force) :=
  [("push", { magnitude := 20, direction := 0, active := true }),
   ("drag", { magnitude := 5, direction := 0, active := false })]

/-- Witness for the amended C8: a concrete permuted id list (with an id
missing from the registry) yields the same net force. -/
theorem calculateNetForce_sum_invariant_witness :
    (["push", "drag", "ghost"].Perm ["drag", "ghost", "push"]) ∧
    calculateNetForce (fun _ => 1) (fun _ => 0) (981/100) sampleForces
        scenario2Body ["push", "drag", "ghost"] =
      calculateNetForce (fun _ => 1) (fun _ => 0) (981/100) sampleForces
        scenario2Body ["drag", "ghost", "push"] :=
  ⟨by decide,
   (calculateNetForce_sum_invariant (fun _ => 1) (fun _ => 0) (981/100)
      sampleForces scenario2Body _ _ (by decide)).2.1⟩

/-!
`PhysicsEngine.createObject` (`motion.js` lines 442-456).  The claim is
about JS object identity: `{...position}` builds a FRESH object holding a
copy of the caller's vector, so later mutation on either side does not
leak to the other.  Mutable `{x, y}` objects are therefore modelled as
cells of a store, and vectors are passed by reference (cell index).
-/

/-- A heap of mutable `{x, y}` objects. -/
abbrev Store := List Vec

/-- Reading a vector cell (out-of-range reads return the zero vector;
the theorems only read allocated cells). -/
def readRef (s : Store) (i : ℕ) : Vec := s.getD i (0, 0)

/-- Mutating a vector cell in place, e.g. `obj.position.x = ...`
rewriting the whole cell. -/
def writeRef (s : Store) (i : ℕ) (v : Vec) : Store := s.set i v

/-- The object record built by `createObject`, its three vector fields
being references into the store. -/
structure BodyRef where
  id : String
  position : ℕ
  velocity : ℕ
  acceleration : ℕ
  mass : ℚ
  radius : ℚ
  color : String
  type : String
  deriving DecidableEq, Repr

/-- `PhysicsEngine.createObject(id, position, velocity = {x:0, y:0},
mass = 1, radius = 10)` (`motion.js` lines 442-456): reads the caller's
vectors, allocates three fresh cells - a copy of `position`
(`{...position}`), a copy of `velocity` (`{...velocity}`) and the literal
`{x: 0, y: 0}` for `acceleration` - and returns the record; `none`
stands for an omitted JS optional argument. -/
def createObject (s : Store) (id : String) (position : ℕ)
    (velocity : Option ℕ) (mass : Option ℚ) (radius : Option ℚ) :
    BodyRef × Store :=
  let posVal := readRef s position
  let velVal :=
    match velocity with
    | some r => readRef s r
    | none => ((0, 0) : Vec)
  ({ id := id, position := s.length, velocity := s.length + 1,
     acceleration := s.length + 2, mass := mass.getD 1,
     radius := radius.getD 10, color := "#3b82f6", type := "ball" },
   s ++ [posVal, velVal, (0, 0)])

/-- Reading an already-allocated cell is unaffected by appending. -/
lemma readRef_append_left (s : Store) (l : List Vec) (i : ℕ)
    (hi : i < s.length) : readRef (s ++ l) i = readRef s i := by
  simp [readRef, List.getD_eq_getElem?_getD, List.getElem?_append_left hi]

/-- The first freshly appended cell. -/
lemma readRef_append0 (s : Store) (a b c : Vec) :
    readRef (s ++ [a, b, c]) s.length = a := by
  simp [readRef, List.getD_eq_getElem?_getD,
    List.getElem?_append_right (le_refl s.length)]

/-- The second freshly appended cell. -/
lemma readRef_append1 (s : Store) (a b c : Vec) :
    readRef (s ++ [a, b, c]) (s.length + 1) = b := by
  simp [readRef, List.getD_eq_getElem?_getD,
    List.getElem?_append_right (Nat.le_add_right s.length 1)]

/-- The third freshly appended cell. -/
lemma readRef_append2 (s : Store) (a b c : Vec) :
    readRef (s ++ [a, b, c]) (s.length + 2) = c := by
  simp [readRef, List.getD_eq_getElem?_getD,
    List.getElem?_append_right (Nat.le_add_right s.length 2)]

/-- Writing one cell leaves every other cell unchanged. -/
lemma readRef_writeRef_ne (s : Store) (i j : ℕ) (w : Vec) (h : i ≠ j) :
    readRef (writeRef s i w) j = readRef s j := by
  simp [readRef, writeRef, List.getD_eq_getElem?_getD, List.getElem?_set_ne h]

/-- C10: `createObject` stores fresh copies of the caller's position and
velocity vectors (overwriting the caller's cell afterwards does not
change the body's cell and vice versa), initializes acceleration to
exactly (0,0), and defaults omitted velocity, mass and radius to (0,0),
1 and 10. -/
theorem createObject_fresh_copies (s : Store) (id : String) (p v : ℕ)
    (m r : ℚ) (hp : p < s.length) (hv : v < s.length) :
    (createObject s id p (some v) (some m) (some r)).1.mass = m ∧
    (createObject s id p (some v) (some m) (some r)).1.radius = r ∧
    readRef (createObject s id p (some v) (some m) (some r)).2
        (createObject s id p (some v) (some m) (some r)).1.acceleration = (0, 0) ∧
    readRef (createObject s id p (some v) (some m) (some r)).2
        (createObject s id p (some v) (some m) (some r)).1.position = readRef s p ∧
    readRef (createObject s id p (some v) (some m) (some r)).2
        (createObject s id p (some v) (some m) (some r)).1.velocity = readRef s v ∧
    (∀ w : Vec,
      readRef (writeRef (createObject s id p (some v) (some m) (some r)).2 p w)
          (createObject s id p (some v) (some m) (some r)).1.position =
        readRef s p) ∧
    (∀ w : Vec,
      readRef (writeRef (createObject s id p (some v) (some m) (some r)).2 v w)
          (createObject s id p (some v) (some m) (some r)).1.velocity =
        readRef s v) ∧
    (∀ w : Vec,
      readRef
          (writeRef (createObject s id p (some v) (some m) (some r)).2
            (createObject s id p (some v) (some m) (some r)).1.position w) p =
        readRef s p) ∧
    (∀ w : Vec,
      readRef
          (writeRef (createObject s id p (some v) (some m) (some r)).2
            (createObject s id p (some v) (some m) (some r)).1.velocity w) v =
        readRef s v) ∧
    (createObject s id p none none none).1.mass = 1 ∧
    (createObject s id p none none none).1.radius = 10 ∧
    readRef (createObject s id p none none none).2
        (createObject s id p none none none).1.velocity = (0, 0) ∧
    readRef (createObject s id p none none none).2
        (createObject s id p none none none).1.acceleration = (0, 0) := by
  have hpn : p ≠ s.length := Nat.ne_of_lt hp
  have hvn : v ≠ s.length + 1 := Nat.ne_of_lt (Nat.lt_succ_of_lt hv)
  refine ⟨rfl, rfl, ?_, ?_, ?_, ?_, ?_, ?_, ?_, rfl, rfl, ?_, ?_⟩
  · exact readRef_append2 s _ _ _
  · exact readRef_append0 s _ _ _
  · exact readRef_append1 s _ _ _
  · intro w
    rw [show (createObject s id p (some v) (some m) (some r)).1.position = s.length
          from rfl,
        readRef_writeRef_ne _ _ _ _ hpn]
    exact readRef_append0 s _ _ _
  · intro w
    rw [show (createObject s id p (some v) (some m) (some r)).1.velocity = s.length + 1
          from rfl,
        readRef_writeRef_ne _ _ _ _ hvn]
    exact readRef_append1 s _ _ _
  · intro w
    rw [show (createObject s id p (some v) (some m) (some r)).1.position = s.length
          from rfl,
        readRef_writeRef_ne _ _ _ _ (Ne.symm hpn)]
    exact readRef_append_left s _ p hp
  · intro w
    rw [show (createObject s id p (some v) (some m) (some r)).1.velocity = s.length + 1
          from rfl,
        readRef_writeRef_ne _ _ _ _ (Ne.symm hvn)]
    exact readRef_append_left s _ v hv
  · exact readRef_append1 s _ _ _
  · exact readRef_append2 s _ _ _

/-- Witness for C10: a two-cell store holding the caller's position
(7, 8) and velocity (1, 2). -/
theorem createObject_fresh_copies_witness :
    ((0 : ℕ) < ([((7 : ℚ), (8 : ℚ)), (1, 2)] : Store).length ∧
      (1 : ℕ) < ([((7 : ℚ), (8 : ℚ)), (1, 2)] : Store).length) ∧
    readRef (createObject [((7 : ℚ), (8 : ℚ)), (1, 2)] "ball-1" 0 (some 1)
        (some 3) (some 12)).2
      (createObject [((7 : ℚ), (8 : ℚ)), (1, 2)] "ball-1" 0 (some 1)
        (some 3) (some 12)).1.position = readRef [((7 : ℚ), (8 : ℚ)), (1, 2)] 0 :=
  ⟨⟨by norm_num, by norm_num⟩,
   (createObject_fresh_copies [((7 : ℚ), (8 : ℚ)), (1, 2)] "ball-1" 0 1 3 12
      (by norm_num) (by norm_num)).2.2.2.1⟩
